import Mathlib

/-!
Shallow embedding of the signalrcore client hub connection engine
(`src/signalrcore/hub/base_hub_connection.py` and
`src/signalrcore/hub_connection_builder.py`).

Python callbacks are opaque values; we model them as `Nat` identifiers and
record each callback invocation as an `Event` instead of executing it.
Wire encoding/decoding is delegated to the external Protocol collaborator,
so frames are modelled by their decoded content, and the transport write in
`send` is modelled by a `SendOutcome` parameter describing what the
underlying `websocket` send did.  Fresh invocation ids (`str(uuid.uuid4())`
in the source) are injected as `String` parameters.  Python exceptions are
modelled by an explicit `Option PyErr` result component; a `some` value
means the call raised.
-/

namespace SignalRCore

/-- Python exception values raised by the embedded code. -/
inductive PyErr
  | valueError (msg : String)
  | keyError (key : String)
  | attributeError (msg : String)
  | hubConnectionError (msg : String)
  | webSocketConnectionClosed
  | connectionReset
  | otherException (msg : String)
  deriving DecidableEq, Repr

/-- Decoded inbound messages, as branched on by `on_message`
(`message.type` against `MessageType`).  Fields the dispatcher never
reads are omitted. -/
inductive Message
  | invocationBindingFailure
  | ping
  | invocation (target : String) (arguments : List String)
  | close
  | completion (invocation_id : String)
  | streamItem (invocation_id : String) (item : String)
  | streamInvocation (invocation_id : String) (target : String) (arguments : List String)
  | cancelInvocation (invocation_id : String)
  deriving DecidableEq, Repr

/-- Observable effects of the dispatcher: log/warn lines and callback
invocations.  A callback slot of a `StreamHandler` may still be `none`
(never subscribed); the dispatcher invokes whatever is stored, so the
event records the stored `Option Nat` value. -/
inductive Event
  | logBindingFailure
  | logClose
  | logHandshakeError (msg : String)
  | warnNoHandler (target : String)
  | warnNoStreamHandler (invocation_id : String)
  | handlerCall (callback : Nat) (arguments : List String)
  | completeCall (callback : Option Nat) (invocation_id : String)
  | nextCall (callback : Option Nat) (item : String)
  | errorCall (callback : Option Nat) (invocation_id : String)
  deriving DecidableEq, Repr

/-- `StreamHandler` from `base_hub_connection.py`: event name, correlation
id and the three callback slots, all `None` until `subscribe`. -/
structure StreamHandler where
  event : String
  invocation_id : String
  next_callback : Option Nat
  complete_callback : Option Nat
  error_callback : Option Nat
  deriving DecidableEq, Repr

/-- `StreamHandler.__init__`: stores the event and invocation id, all
callbacks start as `None`. -/
def StreamHandler.init (event invocation_id : String) : StreamHandler :=
  { event := event, invocation_id := invocation_id,
    next_callback := none, complete_callback := none, error_callback := none }

/-- The Python dict passed to `StreamHandler.subscribe`.  An outer `none`
means the key is absent (so `d[key]` raises `KeyError`); `some none`
means the key is present with value `None`. -/
structure SubscribeCallbacks where
  next_key : Option (Option Nat)
  complete_key : Option (Option Nat)
  error_key : Option (Option Nat)
  deriving DecidableEq, Repr

/-- `StreamHandler.subscribe`: raises `ValueError` when the argument is
`None`; otherwise assigns `self.next_callback`, `self.complete_callback`,
`self.error_callback` from the dict in that order, raising `KeyError` at
the first absent key (assignments made before the raise persist, as in
Python).  A present key whose value is `None` is stored without any
check. -/
def StreamHandler.subscribe (h : StreamHandler)
    (subscribe_callbacks : Option SubscribeCallbacks) :
    StreamHandler × Option PyErr :=
  match subscribe_callbacks with
  | none => (h, some (PyErr.valueError "subscribe object must be a dict of next complete error"))
  | some cbs =>
    match cbs.next_key with
    | none => (h, some (PyErr.keyError "next"))
    | some n =>
      let h1 : StreamHandler := { h with next_callback := n }
      match cbs.complete_key with
      | none => (h1, some (PyErr.keyError "complete"))
      | some c =>
        let h2 : StreamHandler := { h1 with complete_callback := c }
        match cbs.error_key with
        | none => (h2, some (PyErr.keyError "error"))
        | some e => ({ h2 with error_callback := e }, none)

/-- Modelled from the spec: the `reconnection` module is not under `src/`.
`configure_reconnection` constructs `ReconnectionHandler(sleep_time=...,
max_attemps=...)`; we model the constructed object as the record of its
constructor arguments together with its `reconnecting` flag (initially
false, per the spec's reconnection-state description). -/
structure ReconnectionHandler where
  sleep_time : Nat
  max_attemps : Option Nat
  reconnecting : Bool
  deriving DecidableEq, Repr

/-- The mutable state of a `BaseHubConnection` object, together with the
`last_message` / `keep_alive_interval` fields of its
`ConnectionStateChecker` (modelled from the spec: the checker's module is
not under `src/`; `checker_running` tracks its `start`/`stop` calls). -/
structure ConnState where
  handshake_received : Bool
  connection_alive : Bool
  handlers : List (String × Nat)
  stream_handlers : List StreamHandler
  reconnection_handler : Option ReconnectionHandler
  last_message : Nat
  keep_alive_interval : Nat
  checker_running : Bool
  deriving DecidableEq, Repr

/-- The result of `decode_handshake` on the Protocol collaborator. -/
structure HandshakeResponse where
  error : Option String
  deriving DecidableEq, Repr

/-- An inbound frame, modelled by its decoded content: what
`decode_handshake` would yield if the frame is handed to the handshake
evaluator, and what `parse_messages` would yield otherwise. -/
structure Frame where
  handshake : HandshakeResponse
  messages : List Message
  deriving DecidableEq, Repr

/-- What the underlying `websocket` send did: succeeded, raised
`WebSocketConnectionClosedException`, raised `ConnectionResetError`, or
raised some other exception. -/
inductive SendOutcome
  | ok
  | closedException
  | resetError
  | otherFailure (msg : String)
  deriving DecidableEq, Repr

namespace BaseHubConnection

/-- `register_handler`: appends the `(event, callback)` pair. -/
def register_handler (c : ConnState) (event : String) (callback : Nat) : ConnState :=
  { c with handlers := c.handlers ++ [(event, callback)] }

/-- `stop`: closes the transport if alive (no state field in this model)
and stops the connection checker. -/
def stop (c : ConnState) : ConnState :=
  { c with checker_running := false }

/-- `start`: opens the websocket and starts the connection checker. -/
def start (c : ConnState) : ConnState :=
  { c with checker_running := true }

/-- The body of the `except (WebSocketConnectionClosedException,
ConnectionResetError)` clause of `send`: re-raise when no reconnection
handler is configured; otherwise mark the connection not alive and, only
when not already reconnecting, set the flag and run `stop(); start()`.
The third component reports whether a reconnection sequence was started
by this call. -/
def sendClosed (c : ConnState) (ex : PyErr) : ConnState × Option PyErr × Bool :=
  match c.reconnection_handler with
  | none => (c, some ex, false)
  | some rh =>
    let c1 := { c with connection_alive := false }
    if rh.reconnecting then
      (c1, none, false)
    else
      (start (stop { c1 with reconnection_handler := some { rh with reconnecting := true } }),
       none, true)

/-- `send`: on success updates the liveness timestamp; transport-closed
exceptions go through `sendClosed`; any other exception is re-raised
unchanged. -/
def send (c : ConnState) (outcome : SendOutcome) (now : Nat) :
    ConnState × Option PyErr × Bool :=
  match outcome with
  | SendOutcome.ok => ({ c with last_message := now }, none, false)
  | SendOutcome.closedException => sendClosed c PyErr.webSocketConnectionClosed
  | SendOutcome.resetError => sendClosed c PyErr.connectionReset
  | SendOutcome.otherFailure msg => (c, some (PyErr.otherException msg), false)

/-- `evaluate_handshake`: on `error` absent or empty, sets
`handshake_received` and `connection_alive` and then clears
`reconnection_handler.reconnecting` (which raises `AttributeError` when
no reconnection handler is configured, the two flags having already been
set); otherwise logs the error and raises `ValueError`. -/
def evaluate_handshake (c : ConnState) (msg : HandshakeResponse) :
    ConnState × List Event × Option PyErr :=
  if msg.error = none ∨ msg.error = some "" then
    let c1 := { c with handshake_received := true, connection_alive := true }
    match c1.reconnection_handler with
    | none => (c1, [], some (PyErr.attributeError "NoneType object has no attribute reconnecting"))
    | some rh =>
      ({ c1 with reconnection_handler := some { rh with reconnecting := false } }, [], none)
  else
    (c, [Event.logHandshakeError (msg.error.getD "")],
     some (PyErr.valueError ("Handshake error " ++ msg.error.getD "")))

/-- One iteration of the dispatch loop of `on_message`, branching on the
message type exactly as the chain of `if message.type == ...` tests does. -/
def dispatchMessage (c : ConnState) (m : Message) : ConnState × List Event :=
  match m with
  | Message.invocationBindingFailure => (c, [Event.logBindingFailure])
  | Message.ping => (c, [])
  | Message.invocation target arguments =>
    let fired_handlers := c.handlers.filter fun h => decide (h.1 = target)
    (c, (if fired_handlers.length = 0 then [Event.warnNoHandler target] else [])
        ++ fired_handlers.map fun h => Event.handlerCall h.2 arguments)
  | Message.close => ({ c with connection_alive := false }, [Event.logClose])
  | Message.completion invocation_id =>
    let fired_handlers := c.stream_handlers.filter fun h => decide (h.invocation_id = invocation_id)
    ({ c with stream_handlers := c.stream_handlers.filter fun h =>
        decide (¬ h.invocation_id = invocation_id) },
     fired_handlers.map fun h => Event.completeCall h.complete_callback invocation_id)
  | Message.streamItem invocation_id item =>
    let fired_handlers := c.stream_handlers.filter fun h => decide (h.invocation_id = invocation_id)
    (c, (if fired_handlers.length = 0 then [Event.warnNoStreamHandler invocation_id] else [])
        ++ fired_handlers.map fun h => Event.nextCall h.next_callback item)
  | Message.streamInvocation _ _ _ => (c, [])
  | Message.cancelInvocation invocation_id =>
    let fired_handlers := c.stream_handlers.filter fun h => decide (h.invocation_id = invocation_id)
    ({ c with stream_handlers := c.stream_handlers.filter fun h =>
        decide (¬ h.invocation_id = invocation_id) },
     (if fired_handlers.length = 0 then [Event.warnNoStreamHandler invocation_id] else [])
        ++ fired_handlers.map fun h => Event.errorCall h.error_callback invocation_id)

/-- The `for message in messages` loop of `on_message`: dispatch in decode
order; the `close` branch ends with `return`, so a `close` message stops
the whole batch. -/
def processMessages (c : ConnState) : List Message → ConnState × List Event
  | [] => (c, [])
  | m :: ms =>
    let r := dispatchMessage c m
    if m = Message.close then r
    else
      let rest := processMessages r.1 ms
      (rest.1, r.2 ++ rest.2)

/-- `on_message` on one inbound frame: refresh the liveness timestamp;
before the handshake is received, hand the frame to `evaluate_handshake`
and return; afterwards decode it into messages and run the dispatch
loop. -/
def on_message (c : ConnState) (now : Nat) (frame : Frame) :
    ConnState × List Event × Option PyErr :=
  let c0 := { c with last_message := now }
  if c0.handshake_received then
    let r := processMessages c0 frame.messages
    (r.1, r.2, none)
  else
    evaluate_handshake c0 frame.handshake

/-- `stream`: builds a `StreamHandler` for the fresh invocation id,
appends it to `stream_handlers`, and only then sends the
`StreamInvocationMessage`; the handler object is returned.  The append is
never rolled back, whatever `send` does. -/
def stream (c : ConnState) (event : String) (event_params : List String)
    (invocation_id : String) (outcome : SendOutcome) (now : Nat) :
    ConnState × StreamHandler × Option PyErr :=
  let stream_obj := StreamHandler.init event invocation_id
  let c1 := { c with stream_handlers := c.stream_handlers ++ [stream_obj] }
  let r := send c1 outcome now
  (r.1, stream_obj, r.2.1)

/-- The two reconnection policy selectors accepted by
`configure_reconnection` (`ReconnectionType.raw` / `.exponential`). -/
inductive ReconnectionType
  | raw
  | exponential
  deriving DecidableEq, Repr

/-- `configure_reconnection`: stores the keep-alive interval on the
checker, then constructs the reconnection handler.  As in the source,
both the `raw` and the `exponential` branch construct the same
`ReconnectionHandler(sleep_time=reconnect_interval,
max_attemps=max_attemps)`. -/
def configure_reconnection (c : ConnState) (reconnection_type : ReconnectionType)
    (keep_alive_interval reconnect_interval : Nat) (max_attemps : Option Nat) : ConnState :=
  let c1 := { c with keep_alive_interval := keep_alive_interval }
  match reconnection_type with
  | ReconnectionType.raw =>
    { c1 with reconnection_handler := some ⟨reconnect_interval, max_attemps, false⟩ }
  | ReconnectionType.exponential =>
    { c1 with reconnection_handler := some ⟨reconnect_interval, max_attemps, false⟩ }

end BaseHubConnection

/-- A Python value, as far as `type(arguments) is not list` needs to
distinguish it; list elements are opaque and modelled as strings. -/
inductive PyValue
  | pyStr (s : String)
  | pyInt (n : Int)
  | pyList (items : List String)
  | pyNone
  deriving DecidableEq, Repr

/-- `InvocationMessage({}, invocation_id, target, arguments)` as built by
`HubConnectionBuilder.send` (modelled from the spec: the messages module
is not under `src/`; the record keeps the constructor arguments). -/
structure InvocationMessage where
  headers : List (String × String)
  invocation_id : String
  target : String
  arguments : List String
  deriving DecidableEq, Repr

namespace HubConnectionBuilder

/-- `HubConnectionBuilder.send`: raises `HubConnectionError` when
`type(arguments) is not list`, before building any message or touching
the transport; otherwise builds an `InvocationMessage` with a fresh
invocation id and hands it to the hub's `send`.  The middle component is
the message handed to the transport (`none` = no transport write). -/
def send (c : ConnState) (method : String) (arguments : PyValue)
    (invocation_id : String) (outcome : SendOutcome) (now : Nat) :
    ConnState × Option InvocationMessage × Option PyErr :=
  match arguments with
  | PyValue.pyList items =>
    let r := BaseHubConnection.send c outcome now
    (r.1, some { headers := [], invocation_id := invocation_id,
                 target := method, arguments := items }, r.2.1)
  | _ => (c, none, some (PyErr.hubConnectionError "Arguments of a message must be a list"))

end HubConnectionBuilder

/-! ### Helper lemmas about the stream tracker filters -/

theorem filter_match_eq_nil_of_fresh {l : List StreamHandler} {id : String}
    (hfresh : ∀ g ∈ l, g.invocation_id ≠ id) :
    l.filter (fun g => decide (g.invocation_id = id)) = [] := by
  rw [List.filter_eq_nil_iff]
  intro g hg
  simp [hfresh g hg]

theorem filter_keep_eq_self_of_fresh {l : List StreamHandler} {id : String}
    (hfresh : ∀ g ∈ l, g.invocation_id ≠ id) :
    l.filter (fun g => decide (¬ g.invocation_id = id)) = l := by
  rw [List.filter_eq_self]
  intro g hg
  simp [hfresh g hg]

theorem filter_bnot_keep_eq_self_of_fresh {l : List StreamHandler} {id : String}
    (hfresh : ∀ g ∈ l, g.invocation_id ≠ id) :
    l.filter (fun g => !decide (g.invocation_id = id)) = l := by
  rw [List.filter_eq_self]
  intro g hg
  simp [hfresh g hg]

theorem stream_appends_handler (c : ConnState) (ev : String) (params : List String)
    (uuid : String) (outcome : SendOutcome) (now : Nat) :
    (BaseHubConnection.stream c ev params uuid outcome now).1.stream_handlers
        = c.stream_handlers ++ [StreamHandler.init ev uuid] := by
  cases outcome with
  | ok => rfl
  | closedException =>
    simp only [BaseHubConnection.stream, BaseHubConnection.send, BaseHubConnection.sendClosed]
    cases c.reconnection_handler with
    | none => rfl
    | some rh =>
      cases hr : rh.reconnecting <;>
        simp [BaseHubConnection.start, BaseHubConnection.stop, hr]
  | resetError =>
    simp only [BaseHubConnection.stream, BaseHubConnection.send, BaseHubConnection.sendClosed]
    cases c.reconnection_handler with
    | none => rfl
    | some rh =>
      cases hr : rh.reconnecting <;>
        simp [BaseHubConnection.start, BaseHubConnection.stop, hr]
  | otherFailure msg => rfl

theorem processMessages_close_truncates (pre : List Message) :
    ∀ (c : ConnState) (post : List Message), Message.close ∉ pre →
      BaseHubConnection.processMessages c (pre ++ Message.close :: post)
        = BaseHubConnection.processMessages c (pre ++ [Message.close])
      ∧ (BaseHubConnection.processMessages c (pre ++ Message.close :: post)).1.connection_alive
          = false := by
  induction pre with
  | nil =>
    intro c post _
    constructor
    · simp [BaseHubConnection.processMessages]
    · simp [BaseHubConnection.processMessages, BaseHubConnection.dispatchMessage]
  | cons m pre ih =>
    intro c post hpre
    rw [List.mem_cons, not_or] at hpre
    obtain ⟨hm, hpre2⟩ := hpre
    have hmne : m ≠ Message.close := fun hh => hm hh.symm
    obtain ⟨ih1, ih2⟩ := ih (BaseHubConnection.dispatchMessage c m).1 post hpre2
    constructor
    · simp [BaseHubConnection.processMessages, hmne, ih1]
    · simp [BaseHubConnection.processMessages, hmne, ih2]

/-! ### Claim theorems -/

/-- C1: dispatching an `Invocation` with target `t` leaves the state
unchanged; it invokes exactly the registered handlers whose event name
equals `t`, with the message's arguments, in registration order, and no
other handler; when zero handlers match, an unhandled-event warning is
emitted; and processing of the rest of the batch continues. -/
theorem C1_invocation_dispatch (c : ConnState) (t : String) (args : List String)
    (ms : List Message) :
    (BaseHubConnection.dispatchMessage c (Message.invocation t args)).1 = c
    ∧ (BaseHubConnection.dispatchMessage c (Message.invocation t args)).2 =
        (if (c.handlers.filter fun h => decide (h.1 = t)) = [] then [Event.warnNoHandler t] else [])
          ++ (c.handlers.filter fun h => decide (h.1 = t)).map (fun h => Event.handlerCall h.2 args)
    ∧ (∀ cb as, Event.handlerCall cb as ∈ (BaseHubConnection.dispatchMessage c (Message.invocation t args)).2
          ↔ ((t, cb) ∈ c.handlers ∧ as = args))
    ∧ BaseHubConnection.processMessages c (Message.invocation t args :: ms)
        = ((BaseHubConnection.processMessages c ms).1,
           (BaseHubConnection.dispatchMessage c (Message.invocation t args)).2
             ++ (BaseHubConnection.processMessages c ms).2) := by
  refine ⟨rfl, ?_, ?_, ?_⟩
  · by_cases hnil : (c.handlers.filter fun h => decide (h.1 = t)) = [] <;>
      simp [BaseHubConnection.dispatchMessage, List.length_eq_zero, hnil]
  · intro cb as
    simp only [BaseHubConnection.dispatchMessage]
    constructor
    · intro hmem
      rcases List.mem_append.mp hmem with hw | hm
      · split at hw <;> simp_all
      · rcases List.mem_map.mp hm with ⟨h, hh, heq⟩
        rcases List.mem_filter.mp hh with ⟨hmem2, hp⟩
        have ht : h.1 = t := by simpa using hp
        cases heq
        refine ⟨?_, rfl⟩
        have : h = (t, h.2) := by
          cases h; simp_all
        rw [← this]; exact hmem2
    · rintro ⟨hmem, rfl⟩
      apply List.mem_append.mpr
      right
      exact List.mem_map.mpr ⟨(t, cb), List.mem_filter.mpr ⟨hmem, by simp⟩, rfl⟩
  · have hne : Message.invocation t args ≠ Message.close := by simp
    simp [BaseHubConnection.processMessages, hne, BaseHubConnection.dispatchMessage]

/-- C7: the source's `configure_reconnection` installs exactly the same
reconnection handler for the `raw` (fixed) policy as for the
`exponential` policy, at every argument choice: the two configurations
cannot yield different delay schedules. -/
theorem C7_raw_and_exponential_configure_identically (c : ConnState)
    (keep_alive_interval reconnect_interval : Nat) (max_attemps : Option Nat) :
    BaseHubConnection.configure_reconnection c BaseHubConnection.ReconnectionType.raw
        keep_alive_interval reconnect_interval max_attemps
      = BaseHubConnection.configure_reconnection c BaseHubConnection.ReconnectionType.exponential
          keep_alive_interval reconnect_interval max_attemps := rfl

/-- C8: `StreamHandler.subscribe` raises `ValueError` only when the
subscription object itself is `None`; a dict that is present but carries
`None` for all three callbacks is accepted and the `None` callbacks are
stored; a dict missing the `next` key raises `KeyError`, not the
invalid-argument `ValueError`. -/
theorem C8_subscribe_accepts_none_callbacks :
    (StreamHandler.subscribe (StreamHandler.init "ev" "id1") none).2
        = some (PyErr.valueError "subscribe object must be a dict of next complete error")
    ∧ StreamHandler.subscribe (StreamHandler.init "ev" "id1")
        (some ⟨some none, some none, some none⟩)
        = (StreamHandler.init "ev" "id1", none)
    ∧ (StreamHandler.subscribe (StreamHandler.init "ev" "id1")
        (some ⟨none, some (some 1), some (some 2)⟩)).2
        = some (PyErr.keyError "next")
    ∧ StreamHandler.subscribe (StreamHandler.init "ev" "id1")
        (some ⟨some (some 1), some (some 2), some (some 3)⟩)
        = (⟨"ev", "id1", some 1, some 2, some 3⟩, none) := by
  refine ⟨rfl, rfl, rfl, rfl⟩

/-- C10: `stream` appends a `StreamHandler` carrying the freshly
generated invocation id to the stream tracker before sending, returns
that handler, and the registration survives every send outcome —
success, a transport-closed error (with or without a reconnection
policy), and any other send error. -/
theorem C10_stream_registration_never_rolled_back (c : ConnState) (ev : String)
    (params : List String) (uuid : String) (outcome : SendOutcome) (now : Nat) :
    (BaseHubConnection.stream c ev params uuid outcome now).1.stream_handlers
        = c.stream_handlers ++ [StreamHandler.init ev uuid]
    ∧ (BaseHubConnection.stream c ev params uuid outcome now).2.1
        = StreamHandler.init ev uuid := by
  exact ⟨stream_appends_handler c ev params uuid outcome now, rfl⟩

/-- C2: after a `stream()` call registered a handler under a fresh
invocation id, a `Completion` for that id fires the handler's complete
callback exactly once and removes the handler from the tracker; a later
`StreamItem` and a later `CancelInvocation` for the same id match zero
trackers, are reported as unmatched warnings, and deliver no callback.
The handler `h` stands for the registered handler after any
`subscribe` calls (which only change its callback slots), and the first
conjunct ties the registered shape to what `stream` appends. -/
theorem C2_stream_then_completion_lifecycle (c : ConnState) (ev uuid item : String)
    (params : List String) (outcome : SendOutcome) (now : Nat) (h : StreamHandler)
    (hid : h.invocation_id = uuid)
    (hfresh : ∀ g ∈ c.stream_handlers, g.invocation_id ≠ uuid) :
    (BaseHubConnection.stream c ev params uuid outcome now).1.stream_handlers
        = c.stream_handlers ++ [StreamHandler.init ev uuid]
    ∧ BaseHubConnection.processMessages
        { c with stream_handlers := c.stream_handlers ++ [h] }
        [Message.completion uuid, Message.streamItem uuid item, Message.cancelInvocation uuid]
      = (c, [Event.completeCall h.complete_callback uuid,
             Event.warnNoStreamHandler uuid, Event.warnNoStreamHandler uuid]) := by
  refine ⟨stream_appends_handler c ev params uuid outcome now, ?_⟩
  have hs3 : c.stream_handlers.filter (fun g => decide (g.invocation_id = uuid)) = [] :=
    filter_match_eq_nil_of_fresh hfresh
  have hb4 : c.stream_handlers.filter (fun g => !decide (g.invocation_id = uuid))
      = c.stream_handlers :=
    filter_bnot_keep_eq_self_of_fresh hfresh
  simp [BaseHubConnection.processMessages, BaseHubConnection.dispatchMessage,
    hs3, hb4, hid]

/-- C3: `send` propagates a transport-closed error exactly when no
reconnection policy is configured; with a policy the error is swallowed,
the connection is marked not alive, and a reconnection sequence (with the
reconnecting flag set) starts only when none is already in flight, so
two consecutive failing sends start exactly one sequence; any other
error propagates unchanged; success updates the liveness timestamp. -/
theorem C3_send_transport_error_handling (c : ConnState) (now now2 : Nat)
    (rh : ReconnectionHandler) (msg : String) :
    BaseHubConnection.send c SendOutcome.ok now = ({ c with last_message := now }, none, false)
    ∧ (c.reconnection_handler = none →
        BaseHubConnection.send c SendOutcome.closedException now
            = (c, some PyErr.webSocketConnectionClosed, false)
        ∧ BaseHubConnection.send c SendOutcome.resetError now
            = (c, some PyErr.connectionReset, false))
    ∧ (c.reconnection_handler = some rh → rh.reconnecting = false →
        BaseHubConnection.send c SendOutcome.closedException now
          = ({ c with
                connection_alive := false,
                reconnection_handler := some ({ rh with reconnecting := true }),
                checker_running := true }, none, true))
    ∧ (c.reconnection_handler = some rh → rh.reconnecting = true →
        BaseHubConnection.send c SendOutcome.closedException now
          = ({ c with connection_alive := false }, none, false))
    ∧ BaseHubConnection.send c (SendOutcome.otherFailure msg) now
        = (c, some (PyErr.otherException msg), false)
    ∧ (c.reconnection_handler = some rh → rh.reconnecting = false →
        (BaseHubConnection.send c SendOutcome.closedException now).2.2 = true
        ∧ (BaseHubConnection.send (BaseHubConnection.send c SendOutcome.closedException now).1
              SendOutcome.closedException now2).2.2 = false) := by
  refine ⟨rfl, ?_, ?_, ?_, rfl, ?_⟩
  · intro hnone
    constructor <;>
      simp [BaseHubConnection.send, BaseHubConnection.sendClosed, hnone]
  · intro hsome hr
    simp [BaseHubConnection.send, BaseHubConnection.sendClosed, hsome, hr,
      BaseHubConnection.start, BaseHubConnection.stop]
  · intro hsome hr
    simp [BaseHubConnection.send, BaseHubConnection.sendClosed, hsome, hr]
  · intro hsome hr
    constructor <;>
      simp [BaseHubConnection.send, BaseHubConnection.sendClosed, hsome, hr,
        BaseHubConnection.start, BaseHubConnection.stop]

/-- C4: with a reconnection handler configured, the handshake evaluator
treats an absent or empty error as success — handshake received and
connection alive become true and the reconnecting flag is cleared, with
no error raised — while a non-empty error logs it and raises the
handshake `ValueError`, leaving the state (so in particular
`handshake_received` and `connection_alive`) untouched; and before the
handshake is received, `on_message` hands a frame only to the evaluator,
never to the message dispatch loop. -/
theorem C4_handshake_evaluation (c : ConnState) (rh : ReconnectionHandler)
    (resp : HandshakeResponse) (e : String) (now : Nat) (frame : Frame)
    (hconf : c.reconnection_handler = some rh) :
    ((resp.error = none ∨ resp.error = some "") →
      BaseHubConnection.evaluate_handshake c resp
        = ({ c with
              handshake_received := true,
              connection_alive := true,
              reconnection_handler := some ({ rh with reconnecting := false }) }, [], none))
    ∧ (resp.error = some e → e ≠ "" →
      BaseHubConnection.evaluate_handshake c resp
        = (c, [Event.logHandshakeError e],
           some (PyErr.valueError ("Handshake error " ++ e))))
    ∧ (c.handshake_received = false →
      BaseHubConnection.on_message c now frame
        = BaseHubConnection.evaluate_handshake { c with last_message := now } frame.handshake) := by
  refine ⟨?_, ?_, ?_⟩
  · intro hok
    simp only [BaseHubConnection.evaluate_handshake]
    rw [if_pos hok]
    simp [hconf]
  · intro he hne
    have hcond : ¬(resp.error = none ∨ resp.error = some "") := by
      rw [he]; simp [hne]
    simp [BaseHubConnection.evaluate_handshake, hcond, he, hne]
  · intro hhr
    simp [BaseHubConnection.on_message, hhr]

/-- C5: a `CancelInvocation` whose id matches exactly one tracked
handler fires that handler's error callback exactly once and removes it
from the tracker; dispatching a second `CancelInvocation` for the same
id matches zero trackers, emits only the unmatched warning, and leaves
the tracker unchanged. -/
theorem C5_cancel_invocation_idempotent (c : ConnState) (id : String) (h : StreamHandler)
    (huniq : c.stream_handlers.filter (fun g => decide (g.invocation_id = id)) = [h]) :
    BaseHubConnection.dispatchMessage c (Message.cancelInvocation id)
      = ({ c with
            stream_handlers := c.stream_handlers.filter (fun g => decide (¬ g.invocation_id = id)) },
         [Event.errorCall h.error_callback id])
    ∧ BaseHubConnection.dispatchMessage
        (BaseHubConnection.dispatchMessage c (Message.cancelInvocation id)).1
        (Message.cancelInvocation id)
      = ((BaseHubConnection.dispatchMessage c (Message.cancelInvocation id)).1,
         [Event.warnNoStreamHandler id]) := by
  have hbots : ∀ g : StreamHandler,
      (decide (g.invocation_id = id) && decide (¬ g.invocation_id = id)) = false := by
    intro g
    by_cases hg : g.invocation_id = id <;> simp [hg]
  have hfilt2 : (c.stream_handlers.filter (fun g => decide (¬ g.invocation_id = id))).filter
      (fun g => decide (g.invocation_id = id)) = [] := by
    rw [List.filter_filter]
    simp only [hbots]
    exact List.filter_false _
  have hkeep2 : (c.stream_handlers.filter (fun g => decide (¬ g.invocation_id = id))).filter
      (fun g => decide (¬ g.invocation_id = id))
      = c.stream_handlers.filter (fun g => decide (¬ g.invocation_id = id)) := by
    rw [List.filter_filter]
    simp [Bool.and_self]
  constructor
  · simp [BaseHubConnection.dispatchMessage, huniq]
  · simp [BaseHubConnection.dispatchMessage, hfilt2, hkeep2]

/-- C6: messages of one decoded batch are dispatched in decode order (for
a non-close head, dispatch of the head precedes processing of the tail),
and a `Close` at position `k` sets the connection-alive flag false and
prevents every message after position `k` in the batch from being
dispatched. -/
theorem C6_close_truncates_batch (c : ConnState) (pre post : List Message)
    (hpre : Message.close ∉ pre) :
    BaseHubConnection.processMessages c (pre ++ Message.close :: post)
      = BaseHubConnection.processMessages c (pre ++ [Message.close])
    ∧ (BaseHubConnection.processMessages c (pre ++ Message.close :: post)).1.connection_alive
        = false
    ∧ ∀ (m : Message) (ms : List Message), m ≠ Message.close →
        BaseHubConnection.processMessages c (m :: ms)
          = ((BaseHubConnection.processMessages (BaseHubConnection.dispatchMessage c m).1 ms).1,
             (BaseHubConnection.dispatchMessage c m).2
               ++ (BaseHubConnection.processMessages
                     (BaseHubConnection.dispatchMessage c m).1 ms).2) := by
  obtain ⟨h1, h2⟩ := processMessages_close_truncates pre c post hpre
  refine ⟨h1, h2, ?_⟩
  intro m ms hm
  simp [BaseHubConnection.processMessages, hm]

/-- C9: the builder-level `send` raises `HubConnectionError` for every
non-list argument, producing no message and leaving the connection state
untouched (so no encode and no transport write happened); for a list
argument it hands an `InvocationMessage` carrying the fresh invocation
id, the target and the arguments to the hub connection's `send`. -/
theorem C9_builder_send_requires_list (c : ConnState) (method : String)
    (arguments : PyValue) (invocation_id : String) (outcome : SendOutcome)
    (now : Nat) (items : List String) :
    ((∀ xs, arguments ≠ PyValue.pyList xs) →
      HubConnectionBuilder.send c method arguments invocation_id outcome now
        = (c, none, some (PyErr.hubConnectionError "Arguments of a message must be a list")))
    ∧ HubConnectionBuilder.send c method (PyValue.pyList items) invocation_id outcome now
        = ((BaseHubConnection.send c outcome now).1,
           some ({ headers := [], invocation_id := invocation_id,
                   target := method, arguments := items }),
           (BaseHubConnection.send c outcome now).2.1) := by
  constructor
  · intro hnl
    cases arguments with
    | pyList xs => exact absurd rfl (hnl xs)
    | pyStr s => rfl
    | pyInt n => rfl
    | pyNone => rfl
  · rfl

/-! ### Witness states and witness theorems -/

/-- A connected state with a configured, idle reconnection handler. -/
def sampleState : ConnState :=
  { handshake_received := true, connection_alive := true,
    handlers := [], stream_handlers := [],
    reconnection_handler := some ⟨5, none, false⟩, last_message := 0,
    keep_alive_interval := 15, checker_running := true }

/-- A state before the handshake, mid-reconnection. -/
def preHandshakeState : ConnState :=
  { handshake_received := false, connection_alive := false, handlers := [],
    stream_handlers := [], reconnection_handler := some ⟨5, none, true⟩,
    last_message := 0, keep_alive_interval := 15, checker_running := true }

/-- A state tracking one subscribed stream handler under id9. -/
def oneStreamState : ConnState :=
  { sampleState with stream_handlers := [⟨"ev", "id9", some 4, some 5, some 6⟩] }

/-- C2 witness at a concrete connection and a subscribed handler. -/
theorem C2_witness :
    (BaseHubConnection.stream sampleState "ev" ["p"] "id1" SendOutcome.ok 7).1.stream_handlers
        = sampleState.stream_handlers ++ [StreamHandler.init "ev" "id1"]
    ∧ BaseHubConnection.processMessages
        { sampleState with
            stream_handlers := sampleState.stream_handlers ++ [⟨"ev", "id1", some 1, some 2, some 3⟩] }
        [Message.completion "id1", Message.streamItem "id1" "x", Message.cancelInvocation "id1"]
      = (sampleState, [Event.completeCall (some 2) "id1",
          Event.warnNoStreamHandler "id1", Event.warnNoStreamHandler "id1"]) :=
  C2_stream_then_completion_lifecycle sampleState "ev" "id1" "x" ["p"] SendOutcome.ok 7
    ⟨"ev", "id1", some 1, some 2, some 3⟩ rfl (by intro g hg; simp [sampleState] at hg)

/-- C3 witness: two consecutive transport-closed sends from an idle
configured state start exactly one reconnection sequence. -/
theorem C3_witness :
    (BaseHubConnection.send sampleState SendOutcome.closedException 9).2.2 = true
    ∧ (BaseHubConnection.send (BaseHubConnection.send sampleState SendOutcome.closedException 9).1
          SendOutcome.closedException 10).2.2 = false :=
  (C3_send_transport_error_handling sampleState 9 10 ⟨5, none, false⟩ "m").2.2.2.2.2 rfl rfl

/-- C4 witness: an empty handshake error string yields the Connected
transition with the reconnecting flag cleared. -/
theorem C4_witness :
    BaseHubConnection.evaluate_handshake preHandshakeState ⟨some ""⟩
      = ({ preHandshakeState with
            handshake_received := true,
            connection_alive := true,
            reconnection_handler := some ⟨5, none, false⟩ }, [], none) :=
  (C4_handshake_evaluation preHandshakeState ⟨5, none, true⟩ ⟨some ""⟩ "x" 3
      ⟨⟨some ""⟩, []⟩ rfl).1 (Or.inr rfl)

/-- C5 witness at a concrete tracked handler. -/
theorem C5_witness :
    BaseHubConnection.dispatchMessage oneStreamState (Message.cancelInvocation "id9")
      = (sampleState, [Event.errorCall (some 6) "id9"])
    ∧ BaseHubConnection.dispatchMessage
        (BaseHubConnection.dispatchMessage oneStreamState (Message.cancelInvocation "id9")).1
        (Message.cancelInvocation "id9")
      = ((BaseHubConnection.dispatchMessage oneStreamState (Message.cancelInvocation "id9")).1,
         [Event.warnNoStreamHandler "id9"]) :=
  C5_cancel_invocation_idempotent oneStreamState "id9" ⟨"ev", "id9", some 4, some 5, some 6⟩ rfl

/-- C6 witness: a close in the middle of a concrete batch truncates it. -/
theorem C6_witness :
    BaseHubConnection.processMessages sampleState
        ([Message.ping] ++ Message.close :: [Message.invocation "a" []])
      = BaseHubConnection.processMessages sampleState ([Message.ping] ++ [Message.close])
    ∧ (BaseHubConnection.processMessages sampleState
        ([Message.ping] ++ Message.close :: [Message.invocation "a" []])).1.connection_alive
        = false :=
  ⟨(C6_close_truncates_batch sampleState [Message.ping] [Message.invocation "a" []]
      (by decide)).1,
   (C6_close_truncates_batch sampleState [Message.ping] [Message.invocation "a" []]
      (by decide)).2.1⟩

/-- C9 witness: the spec's scenario, sending the non-list argument hi. -/
theorem C9_witness :
    HubConnectionBuilder.send sampleState "Broadcast" (PyValue.pyStr "hi") "uuid1"
        SendOutcome.ok 3
      = (sampleState, none,
         some (PyErr.hubConnectionError "Arguments of a message must be a list")) :=
  (C9_builder_send_requires_list sampleState "Broadcast" (PyValue.pyStr "hi") "uuid1"
      SendOutcome.ok 3 []).1 (by intro xs hx; cases hx)

end SignalRCore
